import Mathlib

/-!
Shallow embedding of the ML node-selection resource-prediction system:
`src/resources/ml/predict.py` (fallback-variant predictor CLI),
`src/resources/ml/train_model.py` (trainer) and `src/demo_prediction.py`
(strict/model-only predictor and label selector).

Python floats are modelled as exact rationals; Python `round(x, 1)` is
modelled as rounding to one decimal with ties to even (banker's rounding,
Python's documented behaviour).  File-system and library effects
(`os.path.exists`, `json.load`, `joblib`/`numpy` imports, `joblib.load`,
`model.predict`) are modelled by explicit oracle arguments describing the
environment's response, so that every control-flow branch of the source is
represented.
-/

/-- Python `round` to the nearest integer with ties to even. -/
def roundHalfEven (q : ℚ) : ℤ :=
  if q - ⌊q⌋ < 1/2 then ⌊q⌋
  else if 1/2 < q - ⌊q⌋ then ⌊q⌋ + 1
  else if ⌊q⌋ % 2 = 0 then ⌊q⌋ else ⌊q⌋ + 1

/-- Python `round(x, 1)`: one decimal place, ties to even. -/
def round1 (q : ℚ) : ℚ :=
  (roundHalfEven (q * 10) : ℚ) / 10

/-- Input build context (the JSON object read by the CLIs).  Every field is
optional: `context.get(key, default)` supplies the defaults. -/
structure BuildContext where
  filesChanged : Option ℤ
  linesAdded : Option ℤ
  linesDeleted : Option ℤ
  depsChanged : Option ℤ
  branch : Option String
  buildType : Option String
deriving DecidableEq

/-- Engineered feature mapping: the dict built by `engineer_features` in
`predict.py` (and inline in `demo_prediction.py`'s `predict`). -/
structure Features where
  files_changed : ℚ
  lines_added : ℚ
  lines_deleted : ℚ
  net_lines : ℚ
  total_changes : ℚ
  deps_changed : ℚ
  is_main : ℚ
  is_release : ℚ
  code_density : ℚ
deriving DecidableEq

/-- Output record of the prediction CLIs.  `fallback_reason` and `error` are
optional keys of the emitted JSON object (`none` when the key is absent). -/
structure ResourcePrediction where
  cpu : ℚ
  memoryGb : ℚ
  timeMinutes : ℚ
  confidence : ℚ
  method : String
  fallback_reason : Option String
  error : Option String
deriving DecidableEq

/-- Oracle for the body of `predict_with_model`'s `try` block: either the
`import joblib` / `import numpy` statements raise `ImportError` (message of
the exception), or `joblib.load` / `model.predict` raise some other
exception (its `str`), or everything succeeds and the model returns a raw
`(cpu, memory, time)` triple for the given feature row. -/
inductive ModelOutcome where
  | importError (e : String)
  | loadOrRunError (e : String)
  | ok (cpu memoryGb timeMinutes : ℚ)
deriving DecidableEq

/-- Oracle for reading and `json.load`-ing the `--input` file: either a
parsed `BuildContext` or an exception message (InputParseError). -/
inductive ParseOutcome where
  | ok (context : BuildContext)
  | parseError (e : String)
deriving DecidableEq

namespace Predict

/-- Inference-time `code_density` formula, `predict.py` line 31:
`(lines_added + lines_deleted) / max(files, 1)` (integer `max`, real
division). -/
def density (total files : ℤ) : ℚ :=
  (total : ℚ) / ((max files 1 : ℤ) : ℚ)

/-- Embedding of `engineer_features` (`predict.py` lines 13-32). -/
def engineer_features (context : BuildContext) : Features :=
  let files := context.filesChanged.getD 0
  let lines_added := context.linesAdded.getD 0
  let lines_deleted := context.linesDeleted.getD 0
  let deps := context.depsChanged.getD 0
  let branch := context.branch.getD "main"
  let build_type := context.buildType.getD "debug"
  { files_changed := (files : ℚ)
    lines_added := (lines_added : ℚ)
    lines_deleted := (lines_deleted : ℚ)
    net_lines := ((lines_added - lines_deleted : ℤ) : ℚ)
    total_changes := ((lines_added + lines_deleted : ℤ) : ℚ)
    deps_changed := (deps : ℚ)
    is_main := if branch ∈ (["main", "master", "develop"] : List String) then 1 else 0
    is_release := if build_type ∈ (["release", "prodRelease"] : List String) then 1 else 0
    code_density := density (lines_added + lines_deleted) files }

/-- Ordered feature row `[features[f] for f in feature_order]`
(`predict.py` lines 44-50). -/
def feature_row (features : Features) : List ℚ :=
  [features.files_changed, features.lines_added, features.lines_deleted,
   features.net_lines, features.total_changes, features.deps_changed,
   features.is_main, features.is_release, features.code_density]

/-- Memory estimate of `predict_with_heuristics` before the final 1-decimal
rounding (`predict.py` lines 73-80): base formula, release multiplier, then
clamp to [1, 30]. -/
def heuristic_memory (features : Features) : ℚ :=
  let memory := 2.0 + features.files_changed * 0.05
      + features.total_changes * 0.001 + features.deps_changed * 1.5
  let memory := if features.is_release ≠ 0 then memory * 1.5 else memory
  max 1.0 (min memory 30.0)

/-- CPU estimate before rounding (`predict.py` lines 82-84), clamped to
[10, 95]. -/
def heuristic_cpu (features : Features) : ℚ :=
  let cpu := 30 + features.files_changed * 0.5 + features.total_changes * 0.01
  max 10 (min cpu 95)

/-- Time estimate before rounding (`predict.py` lines 86-90): base formula,
release multiplier, then clamp to [2, 60]. -/
def heuristic_time (features : Features) : ℚ :=
  let time := 5 + features.files_changed * 0.2
      + features.total_changes * 0.005 + features.deps_changed * 2
  let time := if features.is_release ≠ 0 then time * 1.3 else time
  max 2 (min time 60)

/-- Embedding of `predict_with_heuristics` (`predict.py` lines 66-103).
The `fallback_reason` key is set only when `if error:` is truthy in Python,
i.e. when the argument is neither `None` nor the empty string. -/
def predict_with_heuristics (features : Features) (error : Option String) :
    ResourcePrediction :=
  { cpu := round1 (heuristic_cpu features)
    memoryGb := round1 (heuristic_memory features)
    timeMinutes := round1 (heuristic_time features)
    confidence := 60.0
    method := "heuristic"
    fallback_reason :=
      match error with
      | none => none
      | some e => if e = "" then none else some e
    error := none }

/-- Embedding of `predict_with_model` (`predict.py` lines 35-63).  The
`ModelOutcome` oracle stands for the environment's behaviour inside the
`try` block; the two `except` clauses delegate to the heuristics with the
captured message. -/
def predict_with_model (features : Features) (outcome : ModelOutcome) :
    ResourcePrediction :=
  match outcome with
  | .ok c m t =>
      { cpu := round1 c
        memoryGb := round1 m
        timeMinutes := round1 t
        confidence := 85.0
        method := "ml_model"
        fallback_reason := none
        error := none }
  | .importError e => predict_with_heuristics features (some ("Missing library: " ++ e))
  | .loadOrRunError e => predict_with_heuristics features (some e)

/-- Model-vs-heuristic dispatch in `main` (`predict.py` lines 131-134):
`os.path.exists(args.model)` is the `modelExists` oracle. -/
def dispatch (features : Features) (modelExists : Bool) (outcome : ModelOutcome) :
    ResourcePrediction :=
  if modelExists then predict_with_model features outcome
  else predict_with_heuristics features (some "Model file not found")

/-- Embedding of `main` (`predict.py` lines 106-136): returns the JSON
object printed to standard output together with the process exit code.
Both paths `return` normally, so the exit code is always 0. -/
def main (input : ParseOutcome) (modelExists : Bool) (outcome : ModelOutcome) :
    ResourcePrediction × Nat :=
  match input with
  | .parseError e =>
      ({ cpu := 50.0
         memoryGb := 4.0
         timeMinutes := 10.0
         confidence := 0.0
         method := "error"
         fallback_reason := none
         error := some ("Failed to load input: " ++ e) }, 0)
  | .ok context =>
      let features := engineer_features context
      (dispatch features modelExists outcome, 0)

end Predict

namespace Demo

/-- Feature engineering inlined in `demo_prediction.py`'s `predict`
(lines 28-46), translated separately from `Predict.engineer_features`. -/
def features_of (context : BuildContext) : Features :=
  let files := context.filesChanged.getD 0
  let lines_added := context.linesAdded.getD 0
  let lines_deleted := context.linesDeleted.getD 0
  let deps := context.depsChanged.getD 0
  let branch := context.branch.getD "main"
  let build_type := context.buildType.getD "debug"
  { files_changed := (files : ℚ)
    lines_added := (lines_added : ℚ)
    lines_deleted := (lines_deleted : ℚ)
    net_lines := ((lines_added - lines_deleted : ℤ) : ℚ)
    total_changes := ((lines_added + lines_deleted : ℤ) : ℚ)
    deps_changed := (deps : ℚ)
    is_main := if branch ∈ (["main", "master", "develop"] : List String) then 1 else 0
    is_release := if build_type ∈ (["release", "prodRelease"] : List String) then 1 else 0
    code_density := ((lines_added + lines_deleted : ℤ) : ℚ) / ((max files 1 : ℤ) : ℚ) }

/-- Ordered feature row built in `demo_prediction.py` lines 48-54. -/
def feature_row (features : Features) : List ℚ :=
  [features.files_changed, features.lines_added, features.lines_deleted,
   features.net_lines, features.total_changes, features.deps_changed,
   features.is_main, features.is_release, features.code_density]

/-- Embedding of `select_label` (`demo_prediction.py` lines 64-77). -/
def select_label (memory_gb : ℚ) : String × String :=
  let required := memory_gb * 1.2
  if required ≤ 1.0 then ("lightweight", "T3a Small (1GB)")
  else if required ≤ 2.0 then ("executor", "T3a Small (2GB)")
  else if required ≤ 8.0 then ("build", "T3a Large (8GB)")
  else if required ≤ 16.0 then ("test", "T3a X Large (16GB)")
  else ("heavytest", "T3a 2X Large (32GB)")

end Demo

/-- Row of the training CSV (`training_data.csv` schema from the spec's
section 6, consumed by `train_model.py`). -/
structure TrainRecord where
  status : String
  files_changed : ℤ
  lines_added : ℤ
  lines_deleted : ℤ
  deps_changed : ℤ
  branch : String
  build_type : String
  memory_avg_mb : ℚ
  build_time_sec : ℚ
  cpu_avg : ℚ
deriving DecidableEq

/-- Feature row plus target row produced for one record by
`load_and_prepare_data`. -/
structure PreparedRow where
  features : List ℚ
  targets : List ℚ
deriving DecidableEq

namespace Train

/-- Training-time `code_density` formula, `train_model.py` line 50:
`total_changes / (files_changed + 1)` (integer increment, real division). -/
def density (total files : ℤ) : ℚ :=
  (total : ℚ) / ((files + 1 : ℤ) : ℚ)

/-- The `df = df[df['status'] == 'SUCCESS']` filter
(`train_model.py` lines 40-42). -/
def filter_success (rows : List TrainRecord) : List TrainRecord :=
  rows.filter (fun r => r.status == "SUCCESS")

/-- Per-row feature engineering and target derivation of
`load_and_prepare_data` (`train_model.py` lines 47-65). -/
def prepare_row (r : TrainRecord) : PreparedRow :=
  let net_lines := r.lines_added - r.lines_deleted
  let total_changes := r.lines_added + r.lines_deleted
  let code_density := density total_changes r.files_changed
  let is_main : ℚ :=
    if r.branch ∈ (["main", "master", "develop"] : List String) then 1 else 0
  let is_release : ℚ :=
    if r.build_type ∈ (["release", "prodRelease"] : List String) then 1 else 0
  { features := [(r.files_changed : ℚ), (r.lines_added : ℚ), (r.lines_deleted : ℚ),
                 (net_lines : ℚ), (total_changes : ℚ), (r.deps_changed : ℚ),
                 is_main, is_release, code_density]
    targets := [r.cpu_avg, r.memory_avg_mb / 1024, r.build_time_sec / 60] }

/-- Embedding of `load_and_prepare_data` (`train_model.py` lines 32-79):
filter to SUCCESS rows, raise `ValueError` when fewer than 10 remain,
otherwise derive features and targets. -/
def load_and_prepare_data (rows : List TrainRecord) :
    Except String (List PreparedRow) :=
  let successes := filter_success rows
  if successes.length < 10 then
    .error ("Not enough data for training. Need at least 10 successful builds, have "
      ++ toString successes.length)
  else
    .ok (successes.map prepare_row)

/-- Embedding of the trainer `main` (`train_model.py` lines 145-191),
returning the process exit code.  The actual model fitting and artifact
persistence are opaque library calls; the `fitOk` oracle says whether that
part of the `try` block succeeds. -/
def main (dataExists : Bool) (rows : List TrainRecord) (fitOk : Bool) : Nat :=
  if !dataExists then 1
  else
    match load_and_prepare_data rows with
    | .error _ => 1
    | .ok _ => if fitOk then 0 else 1

end Train

/-- Modelled from the spec: result of the strict-variant prediction CLI —
either an emitted prediction or a fatal structured error.  The strict
predictor itself is `demo_prediction.py`'s `predict`, but `src/` contains no
strict CLI taking a JSON input file, so the payload shape is taken from the
spec's sections 4.3, 6 and 7. -/
inductive StrictOutcome where
  | ok (r : ResourcePrediction)
  | fatal (message : String)
deriving DecidableEq

namespace Strict

/-- Modelled from the spec: strict-variant entry point, sections 4.3 and 7 —
"Fails fast (terminates with a reported error, no fallback) when: modelPath
missing, input JSON unparsable, or model invocation raises for any reason",
emitting to standard error "with a non-zero exit code on unrecoverable
failure".  Returns the outcome and the process exit code. -/
def main (input : ParseOutcome) (modelExists : Bool) (outcome : ModelOutcome) :
    StrictOutcome × Nat :=
  match input with
  | .parseError e => (.fatal ("Failed to parse input: " ++ e), 1)
  | .ok _ =>
      if modelExists then
        match outcome with
        | .ok c m t =>
            (.ok { cpu := round1 c
                   memoryGb := round1 m
                   timeMinutes := round1 t
                   confidence := 85.0
                   method := "ml_model"
                   fallback_reason := none
                   error := none }, 0)
        | .importError e => (.fatal ("Missing library: " ++ e), 1)
        | .loadOrRunError e => (.fatal e, 1)
      else (.fatal "Model file not found", 1)

end Strict

/-- Build context of end-to-end test case A, the "Small Change (hotfix)"
case of `demo_prediction.py` line 98. -/
def ctxA : BuildContext :=
  { filesChanged := some 3
    linesAdded := some 50
    linesDeleted := some 10
    depsChanged := some 0
    branch := some "hotfix/bug"
    buildType := some "debug" }

/-- Zero-file build context of the spec's scenario C. -/
def ctxC : BuildContext :=
  { filesChanged := some 0
    linesAdded := some 0
    linesDeleted := some 0
    depsChanged := some 0
    branch := some "feature/x"
    buildType := some "debug" }

/-! Helper lemmas about the rounding model and concrete evaluations, shared
by the claim theorems below. -/

/-- Lower bound: an integer below `q` is below `roundHalfEven q`. -/
theorem le_roundHalfEven {q : ℚ} {m : ℤ} (h : (m : ℚ) ≤ q) : m ≤ roundHalfEven q := by
  have hm : m ≤ ⌊q⌋ := Int.le_floor.mpr h
  unfold roundHalfEven
  split_ifs <;> omega

/-- Upper bound: an integer above `q` is above `roundHalfEven q`. -/
theorem roundHalfEven_le {q : ℚ} {m : ℤ} (h : q ≤ (m : ℚ)) : roundHalfEven q ≤ m := by
  have hfm : ⌊q⌋ ≤ m := by exact_mod_cast (Int.floor_le q).trans h
  unfold roundHalfEven
  split_ifs with h1 h2 h3
  · exact hfm
  · have hq : (⌊q⌋ : ℚ) + 1/2 < q := by linarith
    have hlt : ⌊q⌋ < m := by
      have : (⌊q⌋ : ℚ) < (m : ℚ) := by linarith
      exact_mod_cast this
    omega
  · exact hfm
  · have hr : q - ⌊q⌋ = 1/2 := le_antisymm (not_lt.mp h2) (not_lt.mp h1)
    have hlt : ⌊q⌋ < m := by
      have : (⌊q⌋ : ℚ) < (m : ℚ) := by linarith
      exact_mod_cast this
    omega

/-- Integer lower bounds survive `round1`. -/
theorem le_round1 {q : ℚ} {m : ℤ} (h : (m : ℚ) ≤ q) : (m : ℚ) ≤ round1 q := by
  have h10 : ((10 * m : ℤ) : ℚ) ≤ q * 10 := by push_cast; linarith
  have hb := le_roundHalfEven h10
  unfold round1
  rw [le_div_iff₀ (by norm_num : (0:ℚ) < 10)]
  calc (m : ℚ) * 10 = ((10 * m : ℤ) : ℚ) := by push_cast; ring
    _ ≤ (roundHalfEven (q * 10) : ℚ) := by exact_mod_cast hb

/-- Integer upper bounds survive `round1`. -/
theorem round1_le {q : ℚ} {m : ℤ} (h : q ≤ (m : ℚ)) : round1 q ≤ (m : ℚ) := by
  have h10 : q * 10 ≤ ((10 * m : ℤ) : ℚ) := by push_cast; linarith
  have hb := roundHalfEven_le h10
  unfold round1
  rw [div_le_iff₀ (by norm_num : (0:ℚ) < 10)]
  calc (roundHalfEven (q * 10) : ℚ) ≤ ((10 * m : ℤ) : ℚ) := by exact_mod_cast hb
    _ = (m : ℚ) * 10 := by push_cast; ring

/-- Evaluation of `round1` away from ties, rounding down. -/
theorem round1_eq {q : ℚ} (n : ℤ) (h1 : (n : ℚ)/10 ≤ q) (h2 : q < ((n : ℚ) + 1/2)/10) :
    round1 q = (n : ℚ)/10 := by
  have hf : ⌊q * 10⌋ = n := Int.floor_eq_iff.mpr ⟨by linarith, by linarith⟩
  unfold round1 roundHalfEven
  rw [hf, if_pos (show q * 10 - (n : ℚ) < 1/2 by linarith)]

/-- Evaluation of the fallback-variant feature engineering on the hotfix
context of end-to-end test case A. -/
theorem featuresA : Predict.engineer_features ctxA =
    { files_changed := 3, lines_added := 50, lines_deleted := 10, net_lines := 40,
      total_changes := 60, deps_changed := 0, is_main := 0, is_release := 0,
      code_density := 20 } := by
  norm_num [Predict.engineer_features, ctxA, Predict.density]
  decide

/-- Raw (pre-rounding) heuristic memory for test case A is exactly 2.21. -/
theorem heuristic_memory_ctxA : Predict.heuristic_memory (Predict.engineer_features ctxA) = 2.21 := by
  rw [featuresA]
  norm_num [Predict.heuristic_memory, min_def, max_def]

/-- C3: for every feature mapping (however extreme), the Heuristic
Estimator's outputs lie within their documented clamps: `memoryGb` in
[1, 30], `cpu` in [10, 95] and `timeMinutes` in [2, 60]. -/
theorem heuristic_outputs_within_clamps (f : Features) (err : Option String) :
    (1 ≤ (Predict.predict_with_heuristics f err).memoryGb ∧
      (Predict.predict_with_heuristics f err).memoryGb ≤ 30) ∧
    (10 ≤ (Predict.predict_with_heuristics f err).cpu ∧
      (Predict.predict_with_heuristics f err).cpu ≤ 95) ∧
    (2 ≤ (Predict.predict_with_heuristics f err).timeMinutes ∧
      (Predict.predict_with_heuristics f err).timeMinutes ≤ 60) := by
  have hmem : 1 ≤ Predict.heuristic_memory f ∧ Predict.heuristic_memory f ≤ 30 := by
    simp only [Predict.heuristic_memory]
    exact ⟨le_trans (by norm_num) (le_max_left _ _),
      max_le (by norm_num) (le_trans (min_le_right _ _) (by norm_num))⟩
  have hcpu : 10 ≤ Predict.heuristic_cpu f ∧ Predict.heuristic_cpu f ≤ 95 := by
    simp only [Predict.heuristic_cpu]
    exact ⟨le_max_left _ _, max_le (by norm_num) (min_le_right _ _)⟩
  have htime : 2 ≤ Predict.heuristic_time f ∧ Predict.heuristic_time f ≤ 60 := by
    simp only [Predict.heuristic_time]
    exact ⟨le_max_left _ _, max_le (by norm_num) (min_le_right _ _)⟩
  refine ⟨⟨?_, ?_⟩, ⟨?_, ?_⟩, ⟨?_, ?_⟩⟩
  · exact_mod_cast le_round1 (m := 1) (by exact_mod_cast hmem.1)
  · exact_mod_cast round1_le (m := 30) (by exact_mod_cast hmem.2)
  · exact_mod_cast le_round1 (m := 10) (by exact_mod_cast hcpu.1)
  · exact_mod_cast round1_le (m := 95) (by exact_mod_cast hcpu.2)
  · exact_mod_cast le_round1 (m := 2) (by exact_mod_cast htime.1)
  · exact_mod_cast round1_le (m := 60) (by exact_mod_cast htime.2)

/-- C4: the Label Selector computes `required = memoryGb * 1.2` and maps it
through the fixed ascending threshold table, with boundaries resolved by
`≤` to the lower bucket. -/
theorem select_label_table (m : ℚ) :
    (m * 1.2 ≤ 1.0 → Demo.select_label m = ("lightweight", "T3a Small (1GB)")) ∧
    (1.0 < m * 1.2 → m * 1.2 ≤ 2.0 → Demo.select_label m = ("executor", "T3a Small (2GB)")) ∧
    (2.0 < m * 1.2 → m * 1.2 ≤ 8.0 → Demo.select_label m = ("build", "T3a Large (8GB)")) ∧
    (8.0 < m * 1.2 → m * 1.2 ≤ 16.0 → Demo.select_label m = ("test", "T3a X Large (16GB)")) ∧
    (16.0 < m * 1.2 → Demo.select_label m = ("heavytest", "T3a 2X Large (32GB)")) := by
  refine ⟨fun h1 => ?_, fun h1 h2 => ?_, fun h1 h2 => ?_, fun h1 h2 => ?_, fun h1 => ?_⟩ <;>
    simp only [Demo.select_label] <;> split_ifs <;>
    first
      | rfl
      | (exfalso; linarith)

/-- Witness for C4 at the boundary: memory 5/3 gives required exactly 2.0,
which resolves to the lower bucket `executor`. -/
theorem select_label_table_witness :
    Demo.select_label (5/3) = ("executor", "T3a Small (2GB)") :=
  (select_label_table (5/3)).2.1 (by norm_num) (by norm_num)

/-- C6: the Predictor's `code_density` formula `total / max(files, 1)` and
the Trainer's `total / (files + 1)` agree for `files = 0` and are genuinely
different formulas for every `files ≥ 1`: at any nonzero `total` their
values differ. -/
theorem code_density_formulas_divergence :
    (∀ total : ℤ, Predict.density total 0 = Train.density total 0) ∧
    (∀ files : ℤ, 1 ≤ files → ∀ total : ℤ, total ≠ 0 →
      Predict.density total files ≠ Train.density total files) := by
  constructor
  · intro t
    simp only [Predict.density, Train.density]
    norm_num
  · intro f hf t ht h
    have hmax : max f 1 = f := max_eq_left hf
    simp only [Predict.density, Train.density, hmax] at h
    have hf0 : (0 : ℚ) < (f : ℚ) := by exact_mod_cast lt_of_lt_of_le Int.zero_lt_one hf
    have hf1 : ((f + 1 : ℤ) : ℚ) ≠ 0 := by push_cast; linarith
    rw [div_eq_div_iff (ne_of_gt hf0) hf1] at h
    have ht' : (t : ℚ) ≠ 0 := Int.cast_ne_zero.mpr ht
    push_cast at h
    have : (t : ℚ) = 0 := by nlinarith [h]
    exact ht' this

/-- Witness for C6: the formulas agree at `files = 0` and differ at
`files = 1`, `total = 1` (the spec's own example). -/
theorem code_density_formulas_divergence_witness :
    Predict.density 7 0 = Train.density 7 0 ∧
    Predict.density 1 1 ≠ Train.density 1 1 :=
  ⟨code_density_formulas_divergence.1 7,
   code_density_formulas_divergence.2 1 (by norm_num) 1 (by norm_num)⟩

/-- C9: the strict variant's inline feature construction computes exactly
the same feature mapping, and the same nine-value ordered feature row, as
the fallback variant's `engineer_features`. -/
theorem strict_features_equal_fallback_features (ctx : BuildContext) :
    Demo.features_of ctx = Predict.engineer_features ctx ∧
    Demo.feature_row (Demo.features_of ctx) =
      Predict.feature_row (Predict.engineer_features ctx) ∧
    (Predict.feature_row (Predict.engineer_features ctx)).length = 9 :=
  ⟨rfl, rfl, rfl⟩

/-- C10: when the fallback-variant CLI fails to open or parse the input
JSON file, it emits a single JSON object with the fixed defaults cpu 50.0,
memoryGb 4.0, timeMinutes 10.0, confidence 0.0, method "error" plus an
error message, and returns normally with exit status 0. -/
theorem fallback_cli_parse_error_output (e : String) (mex : Bool) (o : ModelOutcome) :
    Predict.main (.parseError e) mex o =
      ({ cpu := 50.0, memoryGb := 4.0, timeMinutes := 10.0, confidence := 0.0,
         method := "error", fallback_reason := none,
         error := some ("Failed to load input: " ++ e) }, 0) := rfl

/-- Evaluation of the rounding at the test case A memory value: one-decimal
rounding sends 2.21 to 2.2. -/
theorem round1_2_21 : round1 (2.21 : ℚ) = 2.2 := by
  have h := round1_eq (q := 2.21) 22 (by norm_num) (by norm_num)
  rw [h]; norm_num

/-- The heuristic result's `fallback_reason` field equals the supplied
message whenever that message is non-empty. -/
theorem predict_with_heuristics_fallback_reason (f : Features) (e : String) (he : e ≠ "") :
    (Predict.predict_with_heuristics f (some e)).fallback_reason = some e := by
  show (if e = "" then none else some e) = some e
  rw [if_neg he]

/-- A string starting with the literal prefix of the ImportError message is
never empty. -/
theorem missing_library_message_ne_empty (e : String) : "Missing library: " ++ e ≠ "" := by
  intro h
  have hd : ("Missing library: " ++ e).data = ([] : List Char) := by rw [h]
  rw [String.data_append] at hd
  have h2 := List.append_eq_nil.mp hd
  simp at h2

/-- C1 counterexample: when the captured model error message is the empty
string, the fallback dispatch still returns the heuristic result but the
`fallback_reason` key is absent (Python's `if error:` is falsy on `""`), so
it is not set to the captured message. -/
theorem fallback_empty_reason_counterexample :
    Predict.dispatch (Predict.engineer_features ctxC) true (.loadOrRunError "") =
      Predict.predict_with_heuristics (Predict.engineer_features ctxC) (some "") ∧
    (Predict.dispatch (Predict.engineer_features ctxC) true
        (.loadOrRunError "")).fallback_reason = none ∧
    (Predict.dispatch (Predict.engineer_features ctxC) true
        (.loadOrRunError "")).fallback_reason ≠ some "" := by
  have h2 : (Predict.dispatch (Predict.engineer_features ctxC) true
      (.loadOrRunError "")).fallback_reason = none := by
    show (if ("" : String) = "" then (none : Option String) else some "") = none
    rw [if_pos rfl]
  exact ⟨rfl, h2, by rw [h2]; exact fun h => Option.noConfusion h⟩

/-- C1 (amended): the fallback dispatch never raises: a missing model path
yields the heuristic result annotated "Model file not found"; an
ImportError yields the heuristic result annotated "Missing library: " plus
the message; any other load/run failure yields the heuristic result, with
`fallback_reason` set to the captured message whenever that message is
non-empty. -/
theorem fallback_dispatch_recovers (f : Features) (o : ModelOutcome) :
    (Predict.dispatch f false o =
        Predict.predict_with_heuristics f (some "Model file not found") ∧
      (Predict.dispatch f false o).fallback_reason = some "Model file not found" ∧
      (Predict.dispatch f false o).method = "heuristic") ∧
    (∀ e, Predict.dispatch f true (.importError e) =
        Predict.predict_with_heuristics f (some ("Missing library: " ++ e)) ∧
      (Predict.dispatch f true (.importError e)).fallback_reason =
        some ("Missing library: " ++ e) ∧
      (Predict.dispatch f true (.importError e)).method = "heuristic") ∧
    (∀ e, Predict.dispatch f true (.loadOrRunError e) =
        Predict.predict_with_heuristics f (some e) ∧
      (e ≠ "" → (Predict.dispatch f true (.loadOrRunError e)).fallback_reason = some e) ∧
      (Predict.dispatch f true (.loadOrRunError e)).method = "heuristic") := by
  refine ⟨⟨rfl, ?_, rfl⟩, fun e => ⟨rfl, ?_, rfl⟩, fun e => ⟨rfl, fun he => ?_, rfl⟩⟩
  · exact predict_with_heuristics_fallback_reason f _ (by decide)
  · exact predict_with_heuristics_fallback_reason f _ (missing_library_message_ne_empty e)
  · exact predict_with_heuristics_fallback_reason f _ he

/-- Witness for C1 (amended) at a concrete non-empty error message. -/
theorem fallback_dispatch_recovers_witness :
    ("boom" : String) ≠ "" ∧
    (Predict.dispatch (Predict.engineer_features ctxA) true
        (.loadOrRunError "boom")).fallback_reason = some "boom" :=
  ⟨by decide,
   ((fallback_dispatch_recovers (Predict.engineer_features ctxA)
      (.loadOrRunError "boom")).2.2 "boom").2.1 (by decide)⟩

/-- C2: a malformed or unreadable input JSON is fatal in both variants: the
fallback CLI emits an object tagged method "error" (never a model or
heuristic estimate), unaffected by model availability or model behaviour,
and the strict CLI terminates with a fatal payload and exit code 1, never
an estimate. -/
theorem input_parse_error_fatal_both_variants (e : String) (mex : Bool) (o : ModelOutcome) :
    ((Predict.main (.parseError e) mex o).1.method = "error" ∧
      (Predict.main (.parseError e) mex o).1.method ≠ "ml_model" ∧
      (Predict.main (.parseError e) mex o).1.method ≠ "heuristic") ∧
    (∀ mex' o', Predict.main (.parseError e) mex o = Predict.main (.parseError e) mex' o') ∧
    ((Strict.main (.parseError e) mex o).2 = 1 ∧
      (Strict.main (.parseError e) mex o).1 =
        StrictOutcome.fatal ("Failed to parse input: " ++ e) ∧
      ∀ r, (Strict.main (.parseError e) mex o).1 ≠ StrictOutcome.ok r) :=
  ⟨⟨rfl, (by decide : ("error" : String) ≠ "ml_model"),
    (by decide : ("error" : String) ≠ "heuristic")⟩, fun _ _ => rfl,
   rfl, rfl, fun r h => StrictOutcome.noConfusion h⟩

/-- Witness for C2 at a concrete malformed input. -/
theorem input_parse_error_fatal_both_variants_witness :
    (Predict.main (.parseError "bad") true (.ok 1 2 3)).1.method = "error" ∧
    (Strict.main (.parseError "bad") true (.ok 1 2 3)).2 = 1 :=
  ⟨(input_parse_error_fatal_both_variants "bad" true (.ok 1 2 3)).1.1,
   (input_parse_error_fatal_both_variants "bad" true (.ok 1 2 3)).2.2.1⟩

/-- C5 counterexample: on the hotfix context with no model file, the
end-to-end fallback pipeline's emitted `memoryGb` is 2.2 — the raw
heuristic value 2.21 is rounded to one decimal before being returned — so
the pipeline does not produce memory 2.21, and the buffered requirement is
2.64 (from 2.2) rather than 2.65 (even the raw value gives 2.652). -/
theorem hotfix_pipeline_counterexample :
    (Predict.main (.ok ctxA) false (.loadOrRunError "x")).1.memoryGb = 2.2 ∧
    (Predict.main (.ok ctxA) false (.loadOrRunError "x")).1.memoryGb ≠ 2.21 ∧
    (2.2 : ℚ) * 1.2 = 2.64 ∧
    (2.21 : ℚ) * 1.2 ≠ 2.65 := by
  have hm : (Predict.main (.ok ctxA) false (.loadOrRunError "x")).1.memoryGb
      = round1 (Predict.heuristic_memory (Predict.engineer_features ctxA)) := rfl
  have h22 : (Predict.main (.ok ctxA) false (.loadOrRunError "x")).1.memoryGb = 2.2 := by
    rw [hm, heuristic_memory_ctxA, round1_2_21]
  exact ⟨h22, by rw [h22]; norm_num, by norm_num, by norm_num⟩

/-- C5 (amended): on the hotfix context with no model file the pipeline
takes the heuristic path with reason "Model file not found"; the raw
heuristic memory is 2.21 (2.0 + 3·0.05 + 60·0.001 + 0), the emitted
`memoryGb` after 1-decimal rounding is 2.2, the Label Selector computes
required = 2.64 and returns the bucket "build" / "T3a Large (8GB)". -/
theorem hotfix_pipeline_amended :
    Predict.heuristic_memory (Predict.engineer_features ctxA) = 2.21 ∧
    (Predict.main (.ok ctxA) false (.loadOrRunError "x")).1 =
      Predict.predict_with_heuristics (Predict.engineer_features ctxA)
        (some "Model file not found") ∧
    (Predict.main (.ok ctxA) false (.loadOrRunError "x")).1.memoryGb = 2.2 ∧
    (Predict.main (.ok ctxA) false (.loadOrRunError "x")).1.method = "heuristic" ∧
    (Predict.main (.ok ctxA) false (.loadOrRunError "x")).1.fallback_reason =
      some "Model file not found" ∧
    (2.2 : ℚ) * 1.2 = 2.64 ∧
    Demo.select_label 2.2 = ("build", "T3a Large (8GB)") := by
  refine ⟨heuristic_memory_ctxA, rfl, ?_, rfl, ?_, by norm_num, by norm_num [Demo.select_label]⟩
  · show round1 (Predict.heuristic_memory (Predict.engineer_features ctxA)) = 2.2
    rw [heuristic_memory_ctxA, round1_2_21]
  · exact predict_with_heuristics_fallback_reason _ _ (by decide)

/-- C7: `engineer_features` is pure and total on every build context with a
non-negative file count: neither `code_density` denominator (`max(files,1)`
at inference time, `files + 1` at training time) is zero; missing fields
are equivalent to the defaults 0 / "main" / "debug"; and the all-absent
context yields the default feature mapping (branch "main" makes
`is_main = 1`). -/
theorem engineer_features_pure_total (ctx : BuildContext)
    (h : 0 ≤ ctx.filesChanged.getD 0) :
    ((max (ctx.filesChanged.getD 0) 1 : ℤ) ≠ 0 ∧
      (ctx.filesChanged.getD 0 + 1 : ℤ) ≠ 0) ∧
    Predict.engineer_features ctx =
      Predict.engineer_features
        { filesChanged := some (ctx.filesChanged.getD 0)
          linesAdded := some (ctx.linesAdded.getD 0)
          linesDeleted := some (ctx.linesDeleted.getD 0)
          depsChanged := some (ctx.depsChanged.getD 0)
          branch := some (ctx.branch.getD "main")
          buildType := some (ctx.buildType.getD "debug") } ∧
    Predict.engineer_features ⟨none, none, none, none, none, none⟩ =
      { files_changed := 0, lines_added := 0, lines_deleted := 0, net_lines := 0,
        total_changes := 0, deps_changed := 0, is_main := 1, is_release := 0,
        code_density := 0 } := by
  refine ⟨⟨?_, ?_⟩, rfl, ?_⟩
  · have h1 : (1 : ℤ) ≤ max (ctx.filesChanged.getD 0) 1 := le_max_right _ _
    omega
  · omega
  · norm_num [Predict.engineer_features, Predict.density]
    decide

/-- Witness for C7 at the spec's scenario C zero-file context. -/
theorem engineer_features_pure_total_witness :
    (max (ctxC.filesChanged.getD 0) 1 : ℤ) ≠ 0 ∧
    (ctxC.filesChanged.getD 0 + 1 : ℤ) ≠ 0 :=
  (engineer_features_pure_total ctxC (by decide)).1

/-- C8: the Trainer keeps exactly the loaded rows whose status is SUCCESS,
and when fewer than 10 rows survive the filter it raises the
insufficient-data error and the trainer process exits non-zero instead of
training. -/
theorem trainer_filters_and_min_rows (rows : List TrainRecord) (fitOk : Bool) :
    (∀ r, r ∈ Train.filter_success rows ↔ r ∈ rows ∧ r.status = "SUCCESS") ∧
    ((Train.filter_success rows).length < 10 →
      (∃ msg, Train.load_and_prepare_data rows = .error msg) ∧
      Train.main true rows fitOk = 1) := by
  constructor
  · intro r
    simp [Train.filter_success, List.mem_filter]
  · intro hlen
    have herr : Train.load_and_prepare_data rows =
        .error ("Not enough data for training. Need at least 10 successful builds, have "
          ++ toString (Train.filter_success rows).length) := by
      simp only [Train.load_and_prepare_data]
      rw [if_pos hlen]
    exact ⟨⟨_, herr⟩, by simp [Train.main, herr]⟩

/-- Witness for C8 on an empty training set. -/
theorem trainer_filters_and_min_rows_witness :
    (∃ msg, Train.load_and_prepare_data [] = .error msg) ∧
    Train.main true [] true = 1 :=
  (trainer_filters_and_min_rows [] true).2 (by decide)
